import Mathlib

/-!
# Verification of the pico-raycaster map-editor data model and binary codec

Shallow embedding of `map_editor/map_data.py`, `map_editor/project.py` and
`map_editor/xip_utils.py`, followed by theorems settling the specification
claims about the round-trip behaviour of the `.xip` container codec, the
all-or-nothing behaviour of decode, the dirty-flag discipline around
save/load, column-major tile indexing, pre-save validation and the
total behaviour of the grid accessors.

Python unbounded integers are modelled as `Int`; byte buffers as `List Nat`
(each element a byte value `0..255` when produced by the embedded packers);
fallible operations (Python `struct.pack`/`struct.unpack` raising
`struct.error`, list indexing raising `IndexError`) return `Except String`.
-/

namespace PicoRaycaster

/-- Constant `UNSET_FLAG = -1` from `map_data.py`. -/
def UNSET_FLAG : Int := -1

/-- Constant `MAX_MAP_WIDTH = 255` from `map_data.py`. -/
def MAX_MAP_WIDTH : Int := 255

/-- Constant `MAX_MAP_HEIGHT = 255` from `map_data.py`. -/
def MAX_MAP_HEIGHT : Int := 255

/-- Dataclass `PlayerData` from `map_data.py`: four Q16.16 fixed-point fields
stored as Python ints, `UNSET_FLAG` when not yet assigned. -/
structure PlayerData where
  start_x : Int
  start_y : Int
  start_angle_x : Int
  start_angle_y : Int
deriving DecidableEq, Repr

/-- Default construction `PlayerData()`: every field `UNSET_FLAG`. -/
def PlayerData.default : PlayerData :=
  ⟨UNSET_FLAG, UNSET_FLAG, UNSET_FLAG, UNSET_FLAG⟩

/-- Dataclass `MapData` from `map_data.py`: width/height (uint8 range intended,
`UNSET_FLAG` before initialisation) and the column-major tile list. -/
structure MapData where
  width : Int
  height : Int
  tiles : List Int
deriving DecidableEq, Repr

/-- Default construction `MapData()`: `UNSET_FLAG` dimensions, empty tiles. -/
def MapData.default : MapData :=
  ⟨UNSET_FLAG, UNSET_FLAG, []⟩

/-- The mutable state of `Project` (`project.py`) relevant to the data model:
the map, the player data and the unsaved-changes flag. Qt signals and the
assets path are UI plumbing and carry no data-model state. -/
structure Project where
  map : MapData
  player : PlayerData
  dirty : Bool
deriving DecidableEq, Repr

/-- Constructor `Project.__init__`: fresh `MapData()`, fresh `PlayerData()`, `dirty = False`. -/
def Project.init : Project :=
  ⟨MapData.default, PlayerData.default, false⟩

/-- Method `Project.new_map(width, height)`: installs a fresh zeroed map of the given
size and sets the dirty flag. Python `[0] * (width * height)` yields the empty
list when the product is negative, matching `Int.toNat`. -/
def newMap (proj : Project) (width height : Int) : Project :=
  { proj with
      map := ⟨width, height, List.replicate (width * height).toNat 0⟩
      dirty := true }

/-- Method `Project.in_bounds(x, y)`: `0 <= x < width and 0 <= y < height`.
(`self.map is None` is impossible: `Project.__init__` always installs a map
and no code path assigns `None`.) -/
def inBounds (proj : Project) (x y : Int) : Bool :=
  decide (0 ≤ x) && decide (x < proj.map.width) &&
  decide (0 ≤ y) && decide (y < proj.map.height)

/-- Method `Project._coord_to_index(x, y)`: column-major index `y + height * x`. -/
def coordToIndex (proj : Project) (x y : Int) : Int :=
  y + proj.map.height * x

/-- Python list read `l[i]`: in-range index reads directly, a negative index
in `[-len, 0)` wraps from the end, anything else raises `IndexError`. -/
def pyListGet (l : List Int) (i : Int) : Except String Int :=
  if 0 ≤ i ∧ i < l.length then .ok (l.getD i.toNat 0)
  else if -(l.length : Int) ≤ i ∧ i < 0 then .ok (l.getD (i + l.length).toNat 0)
  else .error "IndexError: list index out of range"

/-- Python list write `l[i] = v`, same index discipline as `pyListGet`. -/
def pyListSet (l : List Int) (i : Int) (v : Int) : Except String (List Int) :=
  if 0 ≤ i ∧ i < l.length then .ok (l.set i.toNat v)
  else if -(l.length : Int) ≤ i ∧ i < 0 then .ok (l.set (i + l.length).toNat v)
  else .error "IndexError: list assignment index out of range"

/-- Method `Project.get_tile(x, y)`: `-1` when out of bounds, otherwise the stored
tile (the list access can raise only if the tile list is shorter than the
declared dimensions promise). -/
def getTile (proj : Project) (x y : Int) : Except String Int :=
  if inBounds proj x y = false then .ok (-1)
  else pyListGet proj.map.tiles (coordToIndex proj x y)

/-- Method `Project.set_tile(x, y, tile_id)`: no-op when out of bounds, otherwise
writes the column-major cell and sets the dirty flag. -/
def setTile (proj : Project) (x y tile_id : Int) : Except String Project :=
  if inBounds proj x y = false then .ok proj
  else
    match pyListSet proj.map.tiles (coordToIndex proj x y) tile_id with
    | .error e => .error e
    | .ok tiles =>
        .ok { proj with
                map := { proj.map with tiles := tiles }
                dirty := true }

/-! ## struct pack/unpack primitives (`xip_utils.py` uses `<I`, `<i`, `<B`) -/

/-- Magic `b'MAP0'` as byte values. -/
def MAP_MAGIC : List Nat := [77, 65, 80, 48]

/-- Constant `MAP_VERSION = 100000` (version 1.0.00). -/
def MAP_VERSION : Nat := 100000

/-- Little-endian 4-byte encoding of a `Nat` below `2^32`
(`struct.pack('<I', n)`; every use in the codec packs an in-range constant). -/
def le32 (n : Nat) : List Nat :=
  [n % 256, n / 256 % 256, n / 65536 % 256, n / 16777216 % 256]

/-- Packer `struct.pack('<i', v)`: little-endian two's-complement int32; raises
`struct.error` outside `[-2^31, 2^31)`. -/
def packI32 (v : Int) : Except String (List Nat) :=
  if -2147483648 ≤ v ∧ v < 2147483648 then .ok (le32 (v % 4294967296).toNat)
  else .error "argument out of range"

/-- Packer `struct.pack('<B', v)`: one byte; raises outside `[0, 255]`. -/
def packU8 (v : Int) : Except String Nat :=
  if 0 ≤ v ∧ v ≤ 255 then .ok v.toNat
  else .error "ubyte format requires 0 <= number <= 255"

/-- Packer `struct.pack('<' + 'B' * count, *tiles)`: raises when the argument count
does not match the format or any value is outside `[0, 255]`. -/
def packTiles (count : Nat) (tiles : List Int) : Except String (List Nat) :=
  if tiles.length ≠ count then .error "pack expected exactly the format count"
  else if tiles.all (fun t => decide (0 ≤ t) && decide (t ≤ 255)) then
    .ok (tiles.map Int.toNat)
  else .error "ubyte format requires 0 <= number <= 255"

/-- Unpacker `struct.unpack('<I', bs)`: requires exactly 4 bytes. -/
def unpackU32 (bs : List Nat) : Except String Nat :=
  match bs with
  | [a, b, c, d] => .ok (a + 256 * b + 65536 * c + 16777216 * d)
  | _ => .error "unpack requires a buffer of 4 bytes"

/-- Unpacker `struct.unpack('<i', bs)`: requires exactly 4 bytes, sign-extends. -/
def unpackI32 (bs : List Nat) : Except String Int :=
  match bs with
  | [a, b, c, d] =>
      let n : Nat := a + 256 * b + 65536 * c + 16777216 * d
      if n < 2147483648 then .ok (n : Int) else .ok ((n : Int) - 4294967296)
  | _ => .error "unpack requires a buffer of 4 bytes"

/-- Unpacker `struct.unpack('<B', bs)`: requires exactly 1 byte. -/
def unpackU8 (bs : List Nat) : Except String Nat :=
  match bs with
  | [a] => .ok a
  | _ => .error "unpack requires a buffer of 1 bytes"

/-- Unpacker `struct.unpack('<' + 'B' * count, bs)`: requires exactly `count` bytes;
`list(...)` of the result gives Python ints. -/
def unpackTiles (count : Nat) (bs : List Nat) : Except String (List Int) :=
  if bs.length = count then .ok (bs.map Int.ofNat)
  else .error "unpack requires a buffer of the format size"

/-- Read `f.seek(p)` followed by `f.read(n)` on a file holding `buf`: returns the
available bytes, possibly fewer than `n` (never raises). -/
def readAt (buf : List Nat) (p n : Nat) : List Nat :=
  (buf.drop p).take n

/-! ## `export_map_to_xip` (`xip_utils.py`)

The pure content of the writer: the byte string it writes on success, or the
`struct.error` that aborts it. Filesystem failures (`open`/`write`) are the
only other failure mode and are outside the embedding. The header constants
are exactly as written: `playerdata_offset = 20`, `mapdata_offset = 36`. -/

/-- Function `export_map_to_xip`, as the bytes written (header, player block, map
block, in source order of the `struct.pack` calls, which is also the order
failures are raised in). -/
def exportMapToXip (player : PlayerData) (map : MapData) : Except String (List Nat) :=
  match packI32 player.start_x with
  | .error e => .error e
  | .ok bx =>
  match packI32 player.start_y with
  | .error e => .error e
  | .ok by_ =>
  match packI32 player.start_angle_x with
  | .error e => .error e
  | .ok bax =>
  match packI32 player.start_angle_y with
  | .error e => .error e
  | .ok bay =>
  match packU8 map.width with
  | .error e => .error e
  | .ok wb =>
  match packU8 map.height with
  | .error e => .error e
  | .ok hb =>
  match packTiles (map.width * map.height).toNat map.tiles with
  | .error e => .error e
  | .ok tb =>
      .ok (MAP_MAGIC ++ le32 MAP_VERSION ++ le32 20 ++ le32 36 ++
           [0, 0, 0, 0] ++ bx ++ by_ ++ bax ++ bay ++ [wb, hb] ++ tb)

/-! ## `import_map_from_xip` (`xip_utils.py`)

Models the reader's sequential file reads and seeks over the buffer, its two
mutation points on the project (player fields after the player section is
fully unpacked; map fields only after the tile bytes are fully unpacked), and
the `(success, error_message)` result. Every short read feeds an `unpack` of
the wrong size, which raises and is caught, so absolute read positions are
faithful to the sequential reads of the source. -/

/-- Header parse: magic check, version, the two section offsets
(the 4 reserved bytes are read but never unpacked, so they cannot fail). -/
def parseHeader (buf : List Nat) : Except String (Nat × Nat) :=
  if readAt buf 0 4 ≠ MAP_MAGIC then .error "Invalid .xip file: incorrect magic number"
  else
  match unpackU32 (readAt buf 4 4) with
  | .error e => .error e
  | .ok _version =>
  match unpackU32 (readAt buf 8 4) with
  | .error e => .error e
  | .ok playerdata_offset =>
  match unpackU32 (readAt buf 12 4) with
  | .error e => .error e
  | .ok mapdata_offset => .ok (playerdata_offset, mapdata_offset)

/-- Player section parse: four consecutive int32 reads from the player offset. -/
def parsePlayer (buf : List Nat) (playerdata_offset : Nat) : Except String PlayerData :=
  match unpackI32 (readAt buf playerdata_offset 4) with
  | .error e => .error e
  | .ok start_x =>
  match unpackI32 (readAt buf (playerdata_offset + 4) 4) with
  | .error e => .error e
  | .ok start_y =>
  match unpackI32 (readAt buf (playerdata_offset + 8) 4) with
  | .error e => .error e
  | .ok start_angle_x =>
  match unpackI32 (readAt buf (playerdata_offset + 12) 4) with
  | .error e => .error e
  | .ok start_angle_y => .ok ⟨start_x, start_y, start_angle_x, start_angle_y⟩

/-- Map section dimension parse: width byte then height byte. -/
def parseMapDims (buf : List Nat) (mapdata_offset : Nat) : Except String (Nat × Nat) :=
  match unpackU8 (readAt buf mapdata_offset 1) with
  | .error e => .error e
  | .ok width =>
  match unpackU8 (readAt buf (mapdata_offset + 1) 1) with
  | .error e => .error e
  | .ok height => .ok (width, height)

/-- Function `import_map_from_xip(filename, project_ref)`: returns the updated project
and the `(success, error_message)` pair. Mutations happen exactly where the
source performs them: the player fields right after the player section
unpacks, the map (via `new_map` and the three field assignments) only after
the tile bytes unpack. -/
def importMapFromXip (buf : List Nat) (proj : Project) : Project × Bool × String :=
  match parseHeader buf with
  | .error e => (proj, false, e)
  | .ok (playerdata_offset, mapdata_offset) =>
  match parsePlayer buf playerdata_offset with
  | .error e => (proj, false, e)
  | .ok p =>
  let proj1 := { proj with player := p }
  match parseMapDims buf mapdata_offset with
  | .error e => (proj1, false, e)
  | .ok (width, height) =>
  let tile_count := width * height
  match unpackTiles tile_count (readAt buf (mapdata_offset + 2) tile_count) with
  | .error e => (proj1, false, e)
  | .ok tiles =>
  let proj2 := newMap proj1 (width : Int) (height : Int)
  let proj3 := { proj2 with
                   map := { proj2.map with
                              width := (width : Int)
                              height := (height : Int)
                              tiles := tiles } }
  (proj3, true, "")

/-! ## Validation and save (`project.py`) -/

/-- Method `Project._validate_map_before_save`: all checks evaluated independently,
messages collected in source order. The first source check
(`self.map is None or self.player is None`) can never fire — `__init__`
installs both objects and no code path assigns `None` — so it contributes no
message here. -/
def validateMapBeforeSave (proj : Project) : List String :=
  (if proj.map.width = UNSET_FLAG ∨ proj.map.height = UNSET_FLAG then
    ["Map has zero width or height, cannot save."] else []) ++
  (if proj.map.width > MAX_MAP_WIDTH ∨ proj.map.height > MAX_MAP_HEIGHT then
    ["Map dimensions exceed maximum size of 255x255."] else []) ++
  (if (proj.map.tiles.length : Int) ≠ proj.map.width * proj.map.height then
    ["Map tile data size does not match width and height."] else []) ++
  (if proj.map.tiles.length = 0 then
    ["Map has no tile data to save."] else []) ++
  (if proj.player.start_x = UNSET_FLAG ∧ proj.player.start_y = UNSET_FLAG then
    ["Player start position is not set."] else []) ++
  (if proj.player.start_angle_x = UNSET_FLAG ∧ proj.player.start_angle_y = UNSET_FLAG then
    ["Player start angle is not set."] else [])

/-- Observable outcome of `Project.save_map`: the project state afterwards,
the message emitted on the `map_saved` signal, and the export call's result
(`none` when validation aborted before `export_map_to_xip` was reached). -/
structure SaveResult where
  proj : Project
  emitted : List String
  written : Option (Except String (List Nat))
deriving Repr

/-- Method `Project.save_map`: aborts with the full message list when validation
fails; otherwise calls `export_map_to_xip` and then — without inspecting the
`(success, error)` tuple it returns — sets `dirty = False` and emits `""`.
(The hard-coded `mapdata.xip` path handling is filesystem plumbing with no
effect on the document state.) -/
def saveMap (proj : Project) : SaveResult :=
  let error_msgs := validateMapBeforeSave proj
  if error_msgs ≠ [] then
    { proj := proj, emitted := error_msgs, written := none }
  else
    { proj := { proj with dirty := false }
      emitted := []
      written := some (exportMapToXip proj.player proj.map) }

/-! ## Concrete demonstration buffers -/

/-- A container whose header and player section are well-formed (player
`(65536, 131072, 65536, 0)`) and whose map section declares a 1×1 map but
ends before the single tile byte. -/
def truncatedMapBuf : List Nat :=
  MAP_MAGIC ++ le32 MAP_VERSION ++ le32 20 ++ le32 36 ++ [0, 0, 0, 0] ++
  le32 65536 ++ le32 131072 ++ le32 65536 ++ le32 0 ++ [1, 1]

/-- A complete well-formed container: player `(65536, 131072, 65536, 0)` and
a 1×1 map with the single tile value 5. -/
def oneByOneMapBuf : List Nat :=
  truncatedMapBuf ++ [5]

/-! ## Helper lemmas -/

/-- Successful byte packing implies the value is in byte range. -/
theorem packU8_eq_ok {v : Int} {b : Nat} (h : packU8 v = .ok b) :
    0 ≤ v ∧ v ≤ 255 := by
  unfold packU8 at h
  by_cases hc : 0 ≤ v ∧ v ≤ 255
  · exact hc
  · rw [if_neg hc] at h
    exact absurd h (by simp)

/-- Packing a byte-range value yields its `toNat`. -/
theorem packU8_ok {v : Int} (h0 : 0 ≤ v) (h255 : v ≤ 255) :
    packU8 v = .ok v.toNat := by
  unfold packU8
  rw [if_pos ⟨h0, h255⟩]

/-- Packing an int32-range value yields the little-endian bytes of its
two's-complement representative. -/
theorem packI32_ok {v : Int} (h1 : -2147483648 ≤ v) (h2 : v < 2147483648) :
    packI32 v = .ok (le32 (v % 4294967296).toNat) := by
  unfold packI32
  rw [if_pos ⟨h1, h2⟩]

/-- Packing a tile list of the right length with in-range entries succeeds. -/
theorem packTiles_ok {count : Nat} {tiles : List Int}
    (hlen : tiles.length = count) (hall : ∀ t ∈ tiles, 0 ≤ t ∧ t ≤ 255) :
    packTiles count tiles = .ok (tiles.map Int.toNat) := by
  unfold packTiles
  rw [if_neg (by simp [hlen]), if_pos]
  simp only [List.all_eq_true, Bool.and_eq_true, decide_eq_true_eq]
  exact fun t ht => hall t ht

/-- Sign-extending unpack inverts the little-endian two's-complement packing
for every int32-range value. -/
theorem unpackI32_le32_toNat (x : Int) (h1 : -2147483648 ≤ x)
    (h2 : x < 2147483648) :
    unpackI32 (le32 (x % 4294967296).toNat) = .ok x := by
  have hnn : (0:Int) ≤ x % 4294967296 := Int.emod_nonneg x (by norm_num)
  have hcast : ((x % 4294967296).toNat : Int) = x % 4294967296 :=
    Int.toNat_of_nonneg hnn
  set n : Nat := (x % 4294967296).toNat with hn
  have hsum : n % 256 + 256 * (n / 256 % 256) + 65536 * (n / 65536 % 256) +
      16777216 * (n / 16777216 % 256) = n := by omega
  simp only [le32, unpackI32, hsum]
  split
  · next hlt2 => exact congrArg Except.ok (by omega)
  · next hge => exact congrArg Except.ok (by omega)

/-- Casting back the `toNat` image of a list of nonnegative integers is the
identity. -/
theorem map_toNat_cast {l : List Int} (h : ∀ t ∈ l, 0 ≤ t) :
    (l.map Int.toNat).map Int.ofNat = l := by
  induction l with
  | nil => rfl
  | cons a l ih =>
      simp only [List.map_cons, List.cons.injEq]
      exact ⟨Int.toNat_of_nonneg (h a (by simp)),
             ih (fun t ht => h t (by simp [ht]))⟩

/-! ## Claim theorems -/

/-- C10. For every pair of integers `(x, y)` and every grid state satisfying
the data-model size invariant (tile list length equals `width * height`
whenever both dimensions are positive — which every reachable grid satisfies,
the uninitialised `UNSET` grid included), `get_tile` never raises: it returns
the stored tile at column-major index `y + height * x` when
`0 ≤ x < width` and `0 ≤ y < height`, and the sentinel `-1` when `(x, y)` is
out of bounds or the grid is uninitialised. -/
theorem getTile_total (proj : Project) (x y : Int)
    (hinv : 0 < proj.map.width → 0 < proj.map.height →
      (proj.map.tiles.length : Int) = proj.map.width * proj.map.height) :
    (∀ e, getTile proj x y ≠ .error e) ∧
    (inBounds proj x y = true →
      getTile proj x y = .ok (proj.map.tiles.getD (y + proj.map.height * x).toNat 0)) ∧
    (inBounds proj x y = false → getTile proj x y = .ok (-1)) := by
  by_cases hb : inBounds proj x y = true
  · have hx0 : 0 ≤ x := by
      simp only [inBounds, Bool.and_eq_true, decide_eq_true_eq] at hb; exact hb.1.1.1
    have hxw : x < proj.map.width := by
      simp only [inBounds, Bool.and_eq_true, decide_eq_true_eq] at hb; exact hb.1.1.2
    have hy0 : 0 ≤ y := by
      simp only [inBounds, Bool.and_eq_true, decide_eq_true_eq] at hb; exact hb.1.2
    have hyh : y < proj.map.height := by
      simp only [inBounds, Bool.and_eq_true, decide_eq_true_eq] at hb; exact hb.2
    have hw0 : 0 < proj.map.width := lt_of_le_of_lt hx0 hxw
    have hh0 : 0 < proj.map.height := lt_of_le_of_lt hy0 hyh
    have hlen := hinv hw0 hh0
    have hidx0 : 0 ≤ y + proj.map.height * x :=
      add_nonneg hy0 (mul_nonneg (le_of_lt hh0) hx0)
    have hidxlt : y + proj.map.height * x < proj.map.width * proj.map.height := by
      have h1 : proj.map.height * x ≤ proj.map.height * (proj.map.width - 1) :=
        mul_le_mul_of_nonneg_left (by omega) (le_of_lt hh0)
      nlinarith
    have hget : getTile proj x y =
        .ok (proj.map.tiles.getD (y + proj.map.height * x).toNat 0) := by
      unfold getTile coordToIndex pyListGet
      rw [if_neg (by simp [hb]), if_pos ⟨hidx0, by rw [hlen]; exact hidxlt⟩]
    refine ⟨fun e he => ?_, fun _ => hget, fun hf => ?_⟩
    · rw [hget] at he
      cases he
    · rw [hb] at hf
      cases hf
  · have hb' : inBounds proj x y = false := by
      cases h : inBounds proj x y
      · rfl
      · exact absurd h hb
    have hget : getTile proj x y = .ok (-1) := by
      unfold getTile
      rw [if_pos hb']
    refine ⟨fun e he => ?_, fun ht => absurd ht hb, fun _ => hget⟩
    rw [hget] at he
    cases he

/-- Witness for C10 at a concrete uninitialised grid and out-of-range cell. -/
theorem getTile_total_witness :
    (0 < Project.init.map.width → 0 < Project.init.map.height →
      (Project.init.map.tiles.length : Int) =
        Project.init.map.width * Project.init.map.height) ∧
    ((∀ e, getTile Project.init 3 7 ≠ .error e) ∧
     (inBounds Project.init 3 7 = true →
       getTile Project.init 3 7 =
         .ok (Project.init.map.tiles.getD
           (7 + Project.init.map.height * 3).toNat 0)) ∧
     (inBounds Project.init 3 7 = false → getTile Project.init 3 7 = .ok (-1))) :=
  ⟨by decide, getTile_total Project.init 3 7 (by decide)⟩

/-- C5. For every grid and every in-bounds cell `(x, y)` of a tile list whose
length matches `width * height`, `set_tile(x, y, t)` succeeds, writes exactly
buffer index `y + height * x`, and a subsequent `get_tile(x, y)` returns `t`.
(The concrete 3×2 instance with `set_tile(2,1,7)` writing index 5 is the
witness below.) -/
theorem setTile_writes_colmajor (proj : Project) (x y t : Int)
    (hx0 : 0 ≤ x) (hxw : x < proj.map.width)
    (hy0 : 0 ≤ y) (hyh : y < proj.map.height)
    (hlen : (proj.map.tiles.length : Int) = proj.map.width * proj.map.height) :
    ∃ proj', setTile proj x y t = .ok proj' ∧
      proj'.map.tiles =
        proj.map.tiles.set (y + proj.map.height * x).toNat t ∧
      getTile proj' x y = .ok t := by
  have hb : inBounds proj x y = true := by
    simp only [inBounds, Bool.and_eq_true, decide_eq_true_eq]
    exact ⟨⟨⟨hx0, hxw⟩, hy0⟩, hyh⟩
  have hh0 : 0 < proj.map.height := lt_of_le_of_lt hy0 hyh
  have hidx0 : 0 ≤ y + proj.map.height * x :=
    add_nonneg hy0 (mul_nonneg (le_of_lt hh0) hx0)
  have hidxlt : y + proj.map.height * x < proj.map.width * proj.map.height := by
    have h1 : proj.map.height * x ≤ proj.map.height * (proj.map.width - 1) :=
      mul_le_mul_of_nonneg_left (by omega) (le_of_lt hh0)
    nlinarith
  have hidxN : (y + proj.map.height * x).toNat < proj.map.tiles.length := by
    have : y + proj.map.height * x < (proj.map.tiles.length : Int) := by
      rw [hlen]; exact hidxlt
    omega
  refine ⟨{ proj with
              map := { proj.map with
                         tiles := proj.map.tiles.set
                           (y + proj.map.height * x).toNat t }
              dirty := true }, ?_, rfl, ?_⟩
  · unfold setTile coordToIndex pyListSet
    rw [if_neg (by simp [hb]),
        if_pos ⟨hidx0, by rw [hlen]; exact hidxlt⟩]
  · unfold getTile coordToIndex pyListGet
    have hb2 : inBounds { proj with
        map := { proj.map with
                   tiles := proj.map.tiles.set
                     (y + proj.map.height * x).toNat t }
        dirty := true } x y = true := by
      simpa [inBounds] using hb
    rw [if_neg (by simp [hb2])]
    simp only [List.length_set]
    rw [if_pos ⟨hidx0, by rw [hlen]; exact hidxlt⟩]
    rw [List.getD_eq_getElem _ _ (by simpa using hidxN)]
    exact congrArg Except.ok (List.getElem_set_self (by simpa using hidxN))

/-- Witness for C5: on the 3×2 grid, `set_tile(2,1,7)` writes buffer index
`1 + 2*2 = 5` and `get_tile(2,1)` returns 7. -/
theorem setTile_writes_colmajor_witness :
    (0:Int) ≤ 2 ∧ (2:Int) < 3 ∧ (0:Int) ≤ 1 ∧ (1:Int) < 2 ∧
    (([0, 0, 0, 0, 0, 0] : List Int).length : Int) = 3 * 2 ∧
    (∃ proj', setTile ⟨⟨3, 2, [0, 0, 0, 0, 0, 0]⟩, PlayerData.default, false⟩
        2 1 7 = .ok proj' ∧
      proj'.map.tiles = ([0, 0, 0, 0, 0, 0] : List Int).set
        ((1 : Int) + 2 * 2).toNat 7 ∧
      getTile proj' 2 1 = .ok 7) :=
  ⟨by decide, by decide, by decide, by decide, by decide,
   setTile_writes_colmajor ⟨⟨3, 2, [0, 0, 0, 0, 0, 0]⟩, PlayerData.default, false⟩
     2 1 7 (by decide) (by decide) (by decide) (by decide) (by decide)⟩

/-- C6. Pre-save validation evaluates every check independently and returns
the full list of violations: the document with width 0 (height left at its
default `UNSET`, as nothing sets it), an empty tile list, and both position
and both angle components unset yields exactly the four distinct error
messages of the four violated rules in one call — so at least four. -/
theorem validate_reports_all_violations :
    validateMapBeforeSave ⟨⟨0, UNSET_FLAG, []⟩, PlayerData.default, false⟩ =
      ["Map has zero width or height, cannot save.",
       "Map has no tile data to save.",
       "Player start position is not set.",
       "Player start angle is not set."] ∧
    4 ≤ (validateMapBeforeSave
      ⟨⟨0, UNSET_FLAG, []⟩, PlayerData.default, false⟩).length ∧
    (validateMapBeforeSave
      ⟨⟨0, UNSET_FLAG, []⟩, PlayerData.default, false⟩).Nodup := by
  refine ⟨?_, ?_, ?_⟩ <;> decide

/-- C8. For every buffer whose first four bytes are not the ASCII magic
`"MAP0"`, decode fails immediately with the magic-mismatch format error and
the target project is returned completely unmodified, regardless of the rest
of the buffer. -/
theorem import_rejects_bad_magic (buf : List Nat) (proj : Project)
    (h : buf.take 4 ≠ MAP_MAGIC) :
    importMapFromXip buf proj =
      (proj, false, "Invalid .xip file: incorrect magic number") := by
  have hh : parseHeader buf = .error "Invalid .xip file: incorrect magic number" := by
    unfold parseHeader
    rw [if_pos (by simpa [readAt] using h)]
  unfold importMapFromXip
  rw [hh]

/-- Witness for C8: a buffer starting `"XIP0"` that is well-formed past the
magic is rejected with the project untouched. -/
theorem import_rejects_bad_magic_witness :
    ([88, 73, 80, 48, 160, 134, 1, 0, 20, 0, 0, 0, 36, 0, 0, 0, 0, 0, 0, 0,
      0, 0, 1, 0, 0, 0, 2, 0, 0, 0, 1, 0, 0, 0, 2, 0, 1, 1, 5] : List Nat).take 4 ≠
        MAP_MAGIC ∧
    importMapFromXip
      [88, 73, 80, 48, 160, 134, 1, 0, 20, 0, 0, 0, 36, 0, 0, 0, 0, 0, 0, 0,
       0, 0, 1, 0, 0, 0, 2, 0, 0, 0, 1, 0, 0, 0, 2, 0, 1, 1, 5] Project.init =
      (Project.init, false, "Invalid .xip file: incorrect magic number") :=
  ⟨by decide,
   import_rejects_bad_magic
     [88, 73, 80, 48, 160, 134, 1, 0, 20, 0, 0, 0, 36, 0, 0, 0, 0, 0, 0, 0,
      0, 0, 1, 0, 0, 0, 2, 0, 0, 0, 1, 0, 0, 0, 2, 0, 1, 1, 5] Project.init
     (by decide)⟩

/-- Counterexample to C9 as stated: the document with width 256 is not
serialized with a masked width byte — `struct.pack('<B', 256)` raises, so
encode reports a failure instead of succeeding. -/
theorem export_width256_fails :
    exportMapToXip ⟨0, 0, 0, 0⟩ ⟨256, 1, [0]⟩ =
      .error "ubyte format requires 0 <= number <= 255" := by
  rfl

/-- C9 (amended). Encode performs no semantic validation of the document, but
out-of-range values are not masked: a width or height outside `[0, 255]`
makes the byte-packing step fail, so encode returns an error for every such
document (whatever the player data and tiles) rather than reducing the value
modulo 256. In-range documents are serialized verbatim (see the round-trip
theorem). -/
theorem export_out_of_range_dims_fail (p : PlayerData) (m : MapData)
    (hw : m.width < 0 ∨ 255 < m.width ∨ m.height < 0 ∨ 255 < m.height) :
    ∃ e, exportMapToXip p m = .error e := by
  unfold exportMapToXip
  cases h1 : packI32 p.start_x with
  | error e => exact ⟨e, rfl⟩
  | ok bx =>
  cases h2 : packI32 p.start_y with
  | error e => exact ⟨e, rfl⟩
  | ok by_ =>
  cases h3 : packI32 p.start_angle_x with
  | error e => exact ⟨e, rfl⟩
  | ok bax =>
  cases h4 : packI32 p.start_angle_y with
  | error e => exact ⟨e, rfl⟩
  | ok bay =>
  cases h5 : packU8 m.width with
  | error e => exact ⟨e, rfl⟩
  | ok wb =>
  cases h6 : packU8 m.height with
  | error e => exact ⟨e, rfl⟩
  | ok hb =>
      have hw5 := packU8_eq_ok h5
      have hh6 := packU8_eq_ok h6
      omega

/-- Witness for C9 (amended) at width 256. -/
theorem export_out_of_range_dims_fail_witness :
    ((256:Int) < 0 ∨ (255:Int) < 256 ∨ (1:Int) < 0 ∨ (255:Int) < 1) ∧
    ∃ e, exportMapToXip ⟨65536, 65536, 65536, 0⟩ ⟨256, 1, [3]⟩ = .error e :=
  ⟨by decide,
   export_out_of_range_dims_fail ⟨65536, 65536, 65536, 0⟩ ⟨256, 1, [3]⟩
     (by decide)⟩

/-- C3 (code bug). The failing input: a project whose map is 1×1 with the
single tile value 256 and whose player fields are all set. Validation
produces no message (tile values are never range-checked), so the save
proceeds; `export_map_to_xip` fails (byte packing of 256 raises); yet
`save_map` ignores the returned `(success, error)` tuple, clears the dirty
flag anyway and emits the success message — where the claim (and the spec,
and the `map_saved` signal's own documentation) require the dirty flag to
remain set when the write step fails. -/
theorem saveMap_clears_dirty_despite_failed_export :
    validateMapBeforeSave
      ⟨⟨1, 1, [256]⟩, ⟨65536, 65536, 65536, 0⟩, true⟩ = [] ∧
    (saveMap ⟨⟨1, 1, [256]⟩, ⟨65536, 65536, 65536, 0⟩, true⟩).written =
      some (.error "ubyte format requires 0 <= number <= 255") ∧
    (saveMap ⟨⟨1, 1, [256]⟩, ⟨65536, 65536, 65536, 0⟩, true⟩).proj.dirty = false ∧
    (saveMap ⟨⟨1, 1, [256]⟩, ⟨65536, 65536, 65536, 0⟩, true⟩).emitted = [] := by
  refine ⟨by decide, ?_, by rfl, by rfl⟩
  rfl

/-- Counterexample to C2 as stated: on a buffer whose map section is
truncated, decode reports failure, yet the player fields of the target
project have already been overwritten — decode is not all-or-nothing. -/
theorem import_truncated_mutates_player :
    (importMapFromXip truncatedMapBuf Project.init).2.1 = false ∧
    (importMapFromXip truncatedMapBuf Project.init).1.player.start_x = 65536 ∧
    Project.init.player.start_x = -1 := by
  refine ⟨?_, ?_, ?_⟩ <;> decide

/-- C2 (amended). For every input buffer on which decode reports a failure,
the map fields and the dirty flag of the target project are unchanged, and
the player fields are unchanged unless the failure occurred in the map
section after the player section was successfully parsed (in which case they
already hold the decoded values) — decode is all-or-nothing for the map but
not for the player. -/
theorem import_failure_preserves_map_and_dirty (buf : List Nat) (proj : Project)
    (h : (importMapFromXip buf proj).2.1 = false) :
    (importMapFromXip buf proj).1.map = proj.map ∧
    (importMapFromXip buf proj).1.dirty = proj.dirty := by
  unfold importMapFromXip at h ⊢
  cases hh : parseHeader buf with
  | error e => exact ⟨rfl, rfl⟩
  | ok po =>
    obtain ⟨pOff, mOff⟩ := po
    simp only [hh] at h ⊢
    cases hp : parsePlayer buf pOff with
    | error e => exact ⟨rfl, rfl⟩
    | ok p =>
      simp only [hp] at h ⊢
      cases hd : parseMapDims buf mOff with
      | error e => exact ⟨rfl, rfl⟩
      | ok wh =>
        obtain ⟨w, hgt⟩ := wh
        simp only [hd] at h ⊢
        cases ht : unpackTiles (w * hgt) (readAt buf (mOff + 2) (w * hgt)) with
        | error e => exact ⟨rfl, rfl⟩
        | ok tiles =>
          simp only [ht] at h
          exact absurd h (by simp)

/-- Witness for C2 (amended): the empty buffer fails decode and leaves map
and dirty flag of a fresh project unchanged. -/
theorem import_failure_preserves_map_and_dirty_witness :
    (importMapFromXip [] Project.init).2.1 = false ∧
    ((importMapFromXip [] Project.init).1.map = Project.init.map ∧
     (importMapFromXip [] Project.init).1.dirty = Project.init.dirty) :=
  ⟨by decide, import_failure_preserves_map_and_dirty [] Project.init (by decide)⟩

/-- Counterexample to C4 as stated: decoding a complete well-formed buffer
succeeds, but the freshly loaded project's dirty flag is `true`, not `false`
(the load path reuses `new_map`, which marks the document dirty, and nothing
clears the flag afterwards). -/
theorem import_success_dirty_concrete :
    (importMapFromXip oneByOneMapBuf Project.init).2.1 = true ∧
    (importMapFromXip oneByOneMapBuf Project.init).1.dirty = true := by
  refine ⟨?_, ?_⟩ <;> decide

/-- C4 (amended). For every successfully decoded buffer, after the load
operation completes the document's dirty flag is `true`: the load internally
rebuilds the grid through `new_map`, which sets the dirty flag, and the flag
is never cleared before the load returns. -/
theorem import_success_sets_dirty (buf : List Nat) (proj : Project)
    (h : (importMapFromXip buf proj).2.1 = true) :
    (importMapFromXip buf proj).1.dirty = true := by
  unfold importMapFromXip at h ⊢
  cases hh : parseHeader buf with
  | error e =>
    simp only [hh] at h
    exact absurd h (by simp)
  | ok po =>
    obtain ⟨pOff, mOff⟩ := po
    simp only [hh] at h ⊢
    cases hp : parsePlayer buf pOff with
    | error e =>
      simp only [hp] at h
      exact absurd h (by simp)
    | ok p =>
      simp only [hp] at h ⊢
      cases hd : parseMapDims buf mOff with
      | error e =>
        simp only [hd] at h
        exact absurd h (by simp)
      | ok wh =>
        obtain ⟨w, hgt⟩ := wh
        simp only [hd] at h ⊢
        cases ht : unpackTiles (w * hgt) (readAt buf (mOff + 2) (w * hgt)) with
        | error e =>
          simp only [ht] at h
          exact absurd h (by simp)
        | ok tiles => simp [ht, newMap]

/-- Witness for C4 (amended) at the complete 1×1 container. -/
theorem import_success_sets_dirty_witness :
    (importMapFromXip oneByOneMapBuf Project.init).2.1 = true ∧
    (importMapFromXip oneByOneMapBuf Project.init).1.dirty = true :=
  ⟨by decide, import_success_sets_dirty oneByOneMapBuf Project.init (by decide)⟩

/-- C7. For every buffer whose map section provides fewer than
`width * height` tile bytes after the width and height bytes, decode returns
a failure result rather than a document with a short tile sequence — missing
bytes are never zero-filled. -/
theorem import_short_tile_data_fails (buf : List Nat) (proj : Project)
    (pOff mOff w h : Nat)
    (hh : parseHeader buf = .ok (pOff, mOff))
    (hd : parseMapDims buf mOff = .ok (w, h))
    (hshort : buf.length - (mOff + 2) < w * h) :
    (importMapFromXip buf proj).2.1 = false := by
  have hlen : (readAt buf (mOff + 2) (w * h)).length ≠ w * h := by
    simp only [readAt, List.length_take, List.length_drop]
    omega
  have hti : unpackTiles (w * h) (readAt buf (mOff + 2) (w * h)) =
      .error "unpack requires a buffer of the format size" := by
    unfold unpackTiles
    rw [if_neg hlen]
  unfold importMapFromXip
  simp only [hh]
  cases hp : parsePlayer buf pOff with
  | error e => simp
  | ok p => simp only [hd, hti]

/-- Witness for C7: the truncated 1×1 container fails decode. -/
theorem import_short_tile_data_fails_witness :
    parseHeader truncatedMapBuf = .ok (20, 36) ∧
    parseMapDims truncatedMapBuf 36 = .ok (1, 1) ∧
    truncatedMapBuf.length - (36 + 2) < 1 * 1 ∧
    (importMapFromXip truncatedMapBuf Project.init).2.1 = false :=
  ⟨rfl, rfl, by decide,
   import_short_tile_data_fails truncatedMapBuf Project.init 20 36 1 1
     rfl rfl (by decide)⟩

/-- C1. For every valid document — width and height in `[0, 255]`, tile list
of length `width * height` with every tile in `[0, 255]`, and all four player
fixed-point fields non-sentinel int32 values — decoding the bytes produced by
encode succeeds and reproduces the identical width, height, tile sequence and
all four player fixed-point fields. -/
theorem export_import_roundtrip (p : PlayerData) (m : MapData) (proj : Project)
    (hw0 : 0 ≤ m.width) (hw1 : m.width ≤ 255)
    (hh0 : 0 ≤ m.height) (hh1 : m.height ≤ 255)
    (hlen : (m.tiles.length : Int) = m.width * m.height)
    (htl : ∀ t ∈ m.tiles, 0 ≤ t ∧ t ≤ 255)
    (hx : -2147483648 ≤ p.start_x ∧ p.start_x < 2147483648 ∧
      p.start_x ≠ UNSET_FLAG)
    (hy : -2147483648 ≤ p.start_y ∧ p.start_y < 2147483648 ∧
      p.start_y ≠ UNSET_FLAG)
    (hax : -2147483648 ≤ p.start_angle_x ∧ p.start_angle_x < 2147483648 ∧
      p.start_angle_x ≠ UNSET_FLAG)
    (hay : -2147483648 ≤ p.start_angle_y ∧ p.start_angle_y < 2147483648 ∧
      p.start_angle_y ≠ UNSET_FLAG) :
    ∃ buf, exportMapToXip p m = .ok buf ∧
      importMapFromXip buf proj =
        ({ proj with map := ⟨m.width, m.height, m.tiles⟩, player := p,
                     dirty := true }, true, "") := by
  obtain ⟨hx1, hx2, -⟩ := hx
  obtain ⟨hy1, hy2, -⟩ := hy
  obtain ⟨hax1, hax2, -⟩ := hax
  obtain ⟨hay1, hay2, -⟩ := hay
  have hWcast : (m.width.toNat : Int) = m.width := Int.toNat_of_nonneg hw0
  have hHcast : (m.height.toNat : Int) = m.height := Int.toNat_of_nonneg hh0
  have hcount : m.tiles.length = (m.width * m.height).toNat := by
    rw [← hlen]
    exact (Int.toNat_natCast _).symm
  have hcountWH : m.tiles.length = m.width.toNat * m.height.toNat := by
    have hprod : ((m.width.toNat * m.height.toNat : Nat) : Int) =
        m.width * m.height := by
      push_cast [hWcast, hHcast]
      ring
    exact_mod_cast hlen.trans hprod.symm
  refine ⟨MAP_MAGIC ++ le32 MAP_VERSION ++ le32 20 ++ le32 36 ++ [0, 0, 0, 0] ++
      le32 (p.start_x % 4294967296).toNat ++
      le32 (p.start_y % 4294967296).toNat ++
      le32 (p.start_angle_x % 4294967296).toNat ++
      le32 (p.start_angle_y % 4294967296).toNat ++
      [m.width.toNat, m.height.toNat] ++ m.tiles.map Int.toNat, ?_, ?_⟩
  · unfold exportMapToXip
    rw [packI32_ok hx1 hx2, packI32_ok hy1 hy2, packI32_ok hax1 hax2,
        packI32_ok hay1 hay2, packU8_ok hw0 hw1, packU8_ok hh0 hh1,
        packTiles_ok hcount htl]
  · set buf : List Nat := MAP_MAGIC ++ le32 MAP_VERSION ++ le32 20 ++
      le32 36 ++ [0, 0, 0, 0] ++
      le32 (p.start_x % 4294967296).toNat ++
      le32 (p.start_y % 4294967296).toNat ++
      le32 (p.start_angle_x % 4294967296).toNat ++
      le32 (p.start_angle_y % 4294967296).toNat ++
      [m.width.toNat, m.height.toNat] ++ m.tiles.map Int.toNat with hbuf
    have hHdr : parseHeader buf = .ok (20, 36) := by
      simp [hbuf, parseHeader, readAt, MAP_MAGIC, MAP_VERSION, le32, unpackU32]
    have e1 : readAt buf 20 4 = le32 (p.start_x % 4294967296).toNat := by
      simp [hbuf, readAt, MAP_MAGIC, MAP_VERSION, le32]
    have e2 : readAt buf 24 4 = le32 (p.start_y % 4294967296).toNat := by
      simp [hbuf, readAt, MAP_MAGIC, MAP_VERSION, le32]
    have e3 : readAt buf 28 4 = le32 (p.start_angle_x % 4294967296).toNat := by
      simp [hbuf, readAt, MAP_MAGIC, MAP_VERSION, le32]
    have e4 : readAt buf 32 4 = le32 (p.start_angle_y % 4294967296).toNat := by
      simp [hbuf, readAt, MAP_MAGIC, MAP_VERSION, le32]
    have hPl : parsePlayer buf 20 = .ok p := by
      unfold parsePlayer
      simp only [Nat.reduceAdd, e1, e2, e3, e4,
        unpackI32_le32_toNat p.start_x hx1 hx2,
        unpackI32_le32_toNat p.start_y hy1 hy2,
        unpackI32_le32_toNat p.start_angle_x hax1 hax2,
        unpackI32_le32_toNat p.start_angle_y hay1 hay2]
    have f1 : readAt buf 36 1 = [m.width.toNat] := by
      simp [hbuf, readAt, MAP_MAGIC, MAP_VERSION, le32]
    have f2 : readAt buf 37 1 = [m.height.toNat] := by
      simp [hbuf, readAt, MAP_MAGIC, MAP_VERSION, le32]
    have hDims : parseMapDims buf 36 = .ok (m.width.toNat, m.height.toNat) := by
      unfold parseMapDims
      simp only [Nat.reduceAdd, f1, f2, unpackU8]
    have g1 : readAt buf 38 (m.width.toNat * m.height.toNat) =
        m.tiles.map Int.toNat := by
      simp only [hbuf, readAt, MAP_MAGIC, MAP_VERSION, le32, List.cons_append,
        List.nil_append, List.drop_succ_cons, List.drop_zero]
      exact List.take_of_length_le (by simp [hcountWH])
    have hTiles : unpackTiles (m.width.toNat * m.height.toNat)
        (readAt buf 38 (m.width.toNat * m.height.toNat)) = .ok m.tiles := by
      unfold unpackTiles
      rw [g1, if_pos (by simp [hcountWH])]
      rw [map_toNat_cast (fun t ht => (htl t ht).1)]
    unfold importMapFromXip
    simp only [hHdr, Nat.reduceAdd, hPl, hDims, hTiles]
    simp [newMap, hWcast, hHcast]

/-- Witness for C1 at a concrete 2×2 document with a negative angle
component. -/
theorem export_import_roundtrip_witness :
    ((0:Int) ≤ 2 ∧ (2:Int) ≤ 255) ∧
    ((([1, 2, 3, 255] : List Int).length : Int) = 2 * 2) ∧
    (∀ t ∈ ([1, 2, 3, 255] : List Int), 0 ≤ t ∧ t ≤ 255) ∧
    ((-2147483648:Int) ≤ 65536 ∧ (65536:Int) < 2147483648 ∧
      (65536:Int) ≠ UNSET_FLAG) ∧
    ((-2147483648:Int) ≤ -65536 ∧ (-65536:Int) < 2147483648 ∧
      (-65536:Int) ≠ UNSET_FLAG) ∧
    (∃ buf, exportMapToXip ⟨65536, 131072, -65536, 5⟩ ⟨2, 2, [1, 2, 3, 255]⟩ =
        .ok buf ∧
      importMapFromXip buf Project.init =
        (⟨⟨2, 2, [1, 2, 3, 255]⟩, ⟨65536, 131072, -65536, 5⟩, true⟩,
         true, "")) :=
  ⟨by decide, by decide, by decide, by decide, by decide,
   export_import_roundtrip ⟨65536, 131072, -65536, 5⟩ ⟨2, 2, [1, 2, 3, 255]⟩
     Project.init (by decide) (by decide) (by decide) (by decide) (by decide)
     (by decide) (by decide) (by decide) (by decide) (by decide)⟩

end PicoRaycaster
